import Mathlib

/-!
Verification of the `ClusterPlot` component (src/src/index.tsx).

The component is a scatter-plot widget over hierarchically clustered point
embeddings.  We shallowly embed its pure logic:

* JavaScript numbers are modelled by `JsNum`: either a finite rational or one
  of the non-finite values `nan`, `posInf`, `negInf`, with the JS semantics of
  the arithmetic operations the component uses (`-`, `/`, `Math.min`,
  `Math.max`, `*`, `Math.floor`).  The negative zero of IEEE 754 is not
  modelled; none of the component's computations distinguish it.
* A point (`Point`) carries rational coordinates and a list of cluster ids,
  one per hierarchy level; an out-of-range index access `pt.clusters[i]`
  (JS `undefined`) is modelled by `Option` via `List.getElem?`.
* The `selectedCluster` state cell can hold JS `null`, `undefined` or a
  cluster id; it is modelled by `JsSel` (`JsSel.val none` is `undefined`).
* Marker colors are either the fixed gray `'#ccc'` or a (possibly
  `undefined`) cluster id, modelled by `MColor`.
-/

namespace ClusterPlot

/-- JavaScript number: `nan`, `±Infinity`, or a finite value (as a rational). -/
inductive JsNum where
  | nan : JsNum
  | posInf : JsNum
  | negInf : JsNum
  | fin (q : ℚ) : JsNum
deriving DecidableEq

namespace JsNum

/-- JS subtraction `a - b`. -/
def sub : JsNum → JsNum → JsNum
  | nan, _ => nan
  | _, nan => nan
  | posInf, posInf => nan
  | posInf, _ => posInf
  | negInf, negInf => nan
  | negInf, _ => negInf
  | fin _, posInf => negInf
  | fin _, negInf => posInf
  | fin a, fin b => fin (a - b)

/-- JS division `a / b` (no negative zero: a finite zero divisor is `+0`). -/
def div : JsNum → JsNum → JsNum
  | nan, _ => nan
  | _, nan => nan
  | posInf, posInf => nan
  | posInf, negInf => nan
  | negInf, posInf => nan
  | negInf, negInf => nan
  | posInf, fin b => if b < 0 then negInf else posInf
  | negInf, fin b => if b < 0 then posInf else negInf
  | fin _, posInf => fin 0
  | fin _, negInf => fin 0
  | fin a, fin b =>
      if b = 0 then (if a = 0 then nan else if 0 < a then posInf else negInf)
      else fin (a / b)

/-- JS multiplication `a * b`. -/
def mul : JsNum → JsNum → JsNum
  | nan, _ => nan
  | _, nan => nan
  | posInf, posInf => posInf
  | posInf, negInf => negInf
  | negInf, posInf => negInf
  | negInf, negInf => posInf
  | posInf, fin b => if b = 0 then nan else if 0 < b then posInf else negInf
  | fin a, posInf => if a = 0 then nan else if 0 < a then posInf else negInf
  | negInf, fin b => if b = 0 then nan else if 0 < b then negInf else posInf
  | fin a, negInf => if a = 0 then nan else if 0 < a then negInf else posInf
  | fin a, fin b => fin (a * b)

/-- JS `Math.max(a, b)`: `NaN` if either argument is `NaN`. -/
def max : JsNum → JsNum → JsNum
  | nan, _ => nan
  | _, nan => nan
  | posInf, _ => posInf
  | _, posInf => posInf
  | negInf, b => b
  | a, negInf => a
  | fin a, fin b => fin (if a ≤ b then b else a)

/-- JS `Math.min(a, b)`: `NaN` if either argument is `NaN`. -/
def min : JsNum → JsNum → JsNum
  | nan, _ => nan
  | _, nan => nan
  | negInf, _ => negInf
  | _, negInf => negInf
  | posInf, b => b
  | a, posInf => a
  | fin a, fin b => fin (if a ≤ b then a else b)

/-- JS `Math.floor`. -/
def floor : JsNum → JsNum
  | nan => nan
  | posInf => posInf
  | negInf => negInf
  | fin q => fin (Int.floor q : ℤ)

end JsNum

/-- A point of the `embeddings` prop:
`{ x: number, y: number, clusters: Array<string | number> }`.
Cluster ids are abstracted to a type `α` with decidable equality. -/
structure Point (α : Type) where
  x : ℚ
  y : ℚ
  clusters : List α
deriving DecidableEq

variable {α : Type} [DecidableEq α]

/-- Minimum of a spread list, as in `Math.min(...xs)`; `Infinity` when empty. -/
def jsMinSpread (xs : List ℚ) : JsNum :=
  xs.foldr (fun a m => JsNum.min (JsNum.fin a) m) JsNum.posInf

/-- Maximum of a spread list, as in `Math.max(...xs)`; `-Infinity` when empty. -/
def jsMaxSpread (xs : List ℚ) : JsNum :=
  xs.foldr (fun a m => JsNum.max (JsNum.fin a) m) JsNum.negInf

/-- Component value `minX`: `Math.min(...embeddings.map(pt => pt.x))`. -/
def minX (e : List (Point α)) : JsNum := jsMinSpread (e.map (·.x))

/-- Component value `maxX`: `Math.max(...embeddings.map(pt => pt.x))`. -/
def maxX (e : List (Point α)) : JsNum := jsMaxSpread (e.map (·.x))

/-- Total x-range of the input: `totalRange = maxX - minX`. -/
def totalRange (e : List (Point α)) : JsNum := (maxX e).sub (minX e)

/-- The `selectedCluster` state cell: JS `null`, or a value that is either a
cluster id (`val (some c)`) or JS `undefined` (`val none`). -/
inductive JsSel (α : Type) where
  | null : JsSel α
  | val (c : Option α) : JsSel α
deriving DecidableEq

/-- The component state cells set by `useState`. -/
structure PlotState (α : Type) where
  currentLevel : JsNum
  densityThreshold : ℕ
  selectedCluster : JsSel α
deriving DecidableEq

/-- The `relativeZoom` computed inside `handleRelayout`:
`Math.min(Math.max((totalRange - currentRange) / totalRange, 0), 1)`. -/
def relativeZoomJs (e : List (Point α)) (currentRange : JsNum) : JsNum :=
  JsNum.min (JsNum.max (((totalRange e).sub currentRange).div (totalRange e))
    (JsNum.fin 0)) (JsNum.fin 1)

/-- Relayout handler `handleRelayout`: if both x-axis bounds are present in the event, set
`currentLevel = Math.floor(relativeZoom * maxLevel)`; otherwise do nothing. -/
def handleRelayout (e : List (Point α)) (maxLevel : ℕ)
    (x0 x1 : Option JsNum) (st : PlotState α) : PlotState α :=
  match x0, x1 with
  | some a, some b =>
      let currentRange := b.sub a
      let relativeZoom := relativeZoomJs e currentRange
      { st with currentLevel := (relativeZoom.mul (JsNum.fin maxLevel)).floor }
  | _, _ => st

/-- The zoom formula of the specification, over exact rationals:
`relativeZoom = clamp((totalXRange - (x1-x0)) / totalXRange, 0, 1)`. -/
def specRelativeZoom (totalXRange currentRange : ℚ) : ℚ :=
  Min.min (Max.max ((totalXRange - currentRange) / totalXRange) 0) 1

/-- The level the specification prescribes:
`currentLevel = floor(relativeZoom * maxLevel)`. -/
def specLevel (totalXRange currentRange : ℚ) (maxLevel : ℕ) : ℤ :=
  Int.floor (specRelativeZoom totalXRange currentRange * (maxLevel : ℚ))

/-- Cluster id of a point at a hierarchy level, i.e. `pt.clusters[level]`;
`none` models the JS `undefined` of an out-of-range access.  This is also the
`customdata` value attached to each rendered point. -/
def clusterAt (pt : Point α) (level : ℕ) : Option α := pt.clusters[level]?

/-- The per-cluster count built by `filteredData`'s first pass: the number of
points of the full `embeddings` list whose cluster id at `level` is `cid`. -/
def clusterCount (e : List (Point α)) (level : ℕ) (cid : Option α) : ℕ :=
  e.countP (fun pt => decide (clusterAt pt level = cid))

/-- Density filter `filteredData`: retain the points whose cluster (at the current level)
has at least `densityThreshold` members in the full `embeddings` list. -/
def filteredData (e : List (Point α)) (level : ℕ) (densityThreshold : ℕ) :
    List (Point α) :=
  e.filter (fun pt => decide (densityThreshold ≤ clusterCount e level (clusterAt pt level)))

/-- Click handler `handleClick`: given the `customdata` values of the clicked points (empty
for a click on empty space), toggle `selectedCluster`.  JS `prev === cid`
compares the state cell (which may hold `null`) with the clicked value (a
cluster id or `undefined`); `null` is strictly unequal to both. -/
def handleClick (pts : List (Option α)) (prev : JsSel α) : JsSel α :=
  match pts with
  | [] => JsSel.null
  | cid :: _ => if prev = JsSel.val cid then JsSel.null else JsSel.val cid

/-- JS loose test `selectedCluster != null`: true exactly when the cell holds
an actual cluster id (false on both `null` and `undefined`). -/
def selIsSome : JsSel α → Bool
  | JsSel.val (some _) => true
  | _ => false

/-- JS strict equality `pt.clusters[currentLevel] === selectedCluster`
between a (possibly `undefined`) cluster id and the state cell. -/
def selEq (s : JsSel α) (c : Option α) : Bool :=
  decide (s = JsSel.val c)

/-- A marker color: the fixed neutral gray `'#ccc'`, or a cluster id value
(`cval none` is the JS `undefined` of a missing lookup). -/
inductive MColor (α : Type) where
  | gray : MColor α
  | cval (c : Option α) : MColor α
deriving DecidableEq

/-- The `markerColors` derivation, per retained point. -/
def markerColor (sel : JsSel α) (level maxLevel : ℕ) (pt : Point α) : MColor α :=
  if selIsSome sel && !(selEq sel (clusterAt pt level)) then
    MColor.gray
  else if selIsSome sel && decide (level < maxLevel)
      && selEq sel (clusterAt pt level) then
    MColor.cval (clusterAt pt (level + 1))
  else
    MColor.cval (clusterAt pt level)

/-- The `markerOpacities` derivation, per retained point. -/
def markerOpacity (sel : JsSel α) (level : ℕ) (pt : Point α) : ℚ :=
  if selIsSome sel && !(selEq sel (clusterAt pt level)) then 1/5 else 1

end ClusterPlot
namespace ClusterPlot

variable {α : Type} [DecidableEq α]

/-- A four-point example input: clusters `[["A"],["A"],["B"],["B"]]`,
x-coordinates `0,1,2,3` (so the total x-range is `3`). -/
def exampleEmbeddings : List (Point String) :=
  [⟨0, 0, ["A"]⟩, ⟨1, 0, ["A"]⟩, ⟨2, 0, ["B"]⟩, ⟨3, 0, ["B"]⟩]

/-- A degenerate example input whose points all share the x-coordinate `5`. -/
def exampleZeroRange : List (Point String) :=
  [⟨5, 0, ["A"]⟩, ⟨5, 1, ["B"]⟩]

/-- The component state right after mount: level 0, threshold 0, no selection. -/
def exampleState : PlotState String := ⟨JsNum.fin 0, 0, JsSel.null⟩

omit [DecidableEq α] in
lemma specRelativeZoom_nonneg (T cr : ℚ) : 0 ≤ specRelativeZoom T cr :=
  le_min (le_max_right _ _) zero_le_one

omit [DecidableEq α] in
lemma specRelativeZoom_le_one (T cr : ℚ) : specRelativeZoom T cr ≤ 1 :=
  min_le_right _ _

omit [DecidableEq α] in
lemma handleRelayout_fin_eq (e : List (Point α)) (mL : ℕ) (x0 x1 T : ℚ)
    (st : PlotState α) (hT : totalRange e = JsNum.fin T) (hT0 : T ≠ 0) :
    handleRelayout e mL (some (JsNum.fin x0)) (some (JsNum.fin x1)) st
      = { st with currentLevel := JsNum.fin ((specLevel T (x1 - x0) mL : ℤ) : ℚ) } := by
  simp [handleRelayout, relativeZoomJs, hT, JsNum.sub, JsNum.div, JsNum.mul, JsNum.floor,
    JsNum.max, JsNum.min, specLevel, specRelativeZoom, hT0, min_def, max_def]

omit [DecidableEq α] in
/-- C1: on a zoom/pan event carrying both x-axis bounds, for an input whose
total x-range is the (nonzero) finite value `T`, the handler sets
`currentLevel` to `floor(clamp((T - (x1-x0))/T, 0, 1) * maxLevel)`. -/
theorem zoom_level_matches_spec (e : List (Point α)) (mL : ℕ) (x0 x1 T : ℚ)
    (st : PlotState α) (hT : totalRange e = JsNum.fin T) (hT0 : T ≠ 0) :
    handleRelayout e mL (some (JsNum.fin x0)) (some (JsNum.fin x1)) st
      = { st with currentLevel := JsNum.fin ((specLevel T (x1 - x0) mL : ℤ) : ℚ) } :=
  handleRelayout_fin_eq e mL x0 x1 T st hT hT0

/-- Witness for C1 at a concrete input: the four-point example has total
x-range `3`; the zoom event `[1/2, 2]` yields level `floor(0.5*10) = 5`. -/
theorem zoom_level_matches_spec_witness :
    totalRange exampleEmbeddings = JsNum.fin (3 - 0) ∧ (3 - 0 : ℚ) ≠ 0 ∧
      handleRelayout exampleEmbeddings 10 (some (JsNum.fin (1/2))) (some (JsNum.fin 2))
          exampleState
        = { exampleState with
            currentLevel := JsNum.fin ((specLevel (3 - 0) (2 - 1/2) 10 : ℤ) : ℚ) } :=
  ⟨rfl, by norm_num,
    zoom_level_matches_spec exampleEmbeddings 10 (1/2) 2 (3 - 0) exampleState rfl (by norm_num)⟩

omit [DecidableEq α] in
/-- C2: for a valid zoom event (both bounds present, total x-range a positive
finite value) the resulting level is an integer in `[0, maxLevel]`, and the
spec's `relativeZoom` is clamped into `[0, 1]` (in particular for `x0 = x1`). -/
theorem zoom_level_in_bounds (e : List (Point α)) (mL : ℕ) (x0 x1 T : ℚ)
    (st : PlotState α) (hT : totalRange e = JsNum.fin T) (hT0 : 0 < T) :
    ((handleRelayout e mL (some (JsNum.fin x0)) (some (JsNum.fin x1)) st).currentLevel
        = JsNum.fin ((specLevel T (x1 - x0) mL : ℤ) : ℚ)
      ∧ 0 ≤ specLevel T (x1 - x0) mL ∧ specLevel T (x1 - x0) mL ≤ (mL : ℤ))
    ∧ (0 ≤ specRelativeZoom T (x1 - x0) ∧ specRelativeZoom T (x1 - x0) ≤ 1) := by
  refine ⟨⟨?_, ?_, ?_⟩, specRelativeZoom_nonneg T (x1 - x0), specRelativeZoom_le_one T (x1 - x0)⟩
  · rw [handleRelayout_fin_eq e mL x0 x1 T st hT hT0.ne']
  · exact Int.floor_nonneg.mpr
      (mul_nonneg (specRelativeZoom_nonneg T (x1 - x0)) (Nat.cast_nonneg mL))
  · calc specLevel T (x1 - x0) mL ≤ ⌊(mL : ℚ)⌋ := by
          refine Int.floor_le_floor ?_
          calc specRelativeZoom T (x1 - x0) * (mL : ℚ)
              ≤ 1 * (mL : ℚ) :=
                mul_le_mul_of_nonneg_right (specRelativeZoom_le_one T (x1 - x0))
                  (Nat.cast_nonneg mL)
            _ = (mL : ℚ) := one_mul _
       _ = (mL : ℤ) := Int.floor_natCast mL

/-- Witness for C2 at a concrete input (`x0 = x1 = 1`, total x-range `3`). -/
theorem zoom_level_in_bounds_witness :
    totalRange exampleEmbeddings = JsNum.fin (3 - 0) ∧ (0 : ℚ) < 3 - 0 ∧
      (((handleRelayout exampleEmbeddings 10 (some (JsNum.fin 1)) (some (JsNum.fin 1))
            exampleState).currentLevel
          = JsNum.fin ((specLevel (3 - 0) (1 - 1) 10 : ℤ) : ℚ)
        ∧ 0 ≤ specLevel (3 - 0) (1 - 1) 10 ∧ specLevel (3 - 0) (1 - 1) 10 ≤ (10 : ℤ))
      ∧ (0 ≤ specRelativeZoom (3 - 0) (1 - 1) ∧ specRelativeZoom (3 - 0) (1 - 1) ≤ 1)) :=
  ⟨rfl, by norm_num,
    zoom_level_in_bounds exampleEmbeddings 10 1 1 (3 - 0) exampleState rfl (by norm_num)⟩

omit [DecidableEq α] in
/-- C3: a relayout event missing either x-axis bound leaves the whole
component state (level, threshold, selection) unchanged. -/
theorem relayout_missing_bound_noop (e : List (Point α)) (mL : ℕ)
    (x0 x1 : Option JsNum) (st : PlotState α) (h : x0 = none ∨ x1 = none) :
    handleRelayout e mL x0 x1 st = st := by
  rcases h with h | h
  · subst h; rfl
  · subst h; cases x0 <;> rfl

/-- Witness for C3: an event with no bounds leaves the mount state intact. -/
theorem relayout_missing_bound_noop_witness :
    ((none : Option JsNum) = none ∨ (none : Option JsNum) = none) ∧
      handleRelayout exampleEmbeddings 10 none none exampleState = exampleState :=
  ⟨Or.inl rfl, relayout_missing_bound_noop exampleEmbeddings 10 none none exampleState
    (Or.inl rfl)⟩

/-- C4: a point is retained by the density filter iff it occurs in the input
and the number of input points sharing its cluster id at the current level is
at least the threshold; on the four-point example `[["A"],["A"],["B"],["B"]]`
at level 0, threshold 2 retains all four points and threshold 3 retains none. -/
theorem density_filter_membership :
    (∀ {β : Type} [DecidableEq β] (e : List (Point β)) (level t : ℕ) (pt : Point β),
        pt ∈ filteredData e level t
          ↔ pt ∈ e ∧ t ≤ clusterCount e level (clusterAt pt level))
    ∧ filteredData exampleEmbeddings 0 2 = exampleEmbeddings
    ∧ filteredData exampleEmbeddings 0 3 = [] := by
  refine ⟨fun e level t pt => ?_, by decide, by decide⟩
  simp [filteredData, List.mem_filter]

/-- C5: density threshold `0` retains every input point. -/
theorem density_threshold_zero_retains_all (e : List (Point α)) (level : ℕ) :
    filteredData e level 0 = e := by
  simp [filteredData]

/-- C6: a click on a rendered point selects that point's cluster id at the
current level, unless it was already selected, in which case it clears the
selection; a click on empty space clears the selection; hence toggling twice
from a state where the cluster is not selected returns to no selection. -/
theorem click_selection_toggle (pt : Point α) (level : ℕ)
    (rest : List (Option α)) (prev : JsSel α) :
    (prev ≠ JsSel.val (clusterAt pt level) →
        handleClick (clusterAt pt level :: rest) prev = JsSel.val (clusterAt pt level))
    ∧ handleClick (clusterAt pt level :: rest) (JsSel.val (clusterAt pt level)) = JsSel.null
    ∧ handleClick [] prev = JsSel.null
    ∧ (prev ≠ JsSel.val (clusterAt pt level) →
        handleClick (clusterAt pt level :: rest)
          (handleClick (clusterAt pt level :: rest) prev) = JsSel.null) := by
  refine ⟨fun h => ?_, ?_, rfl, fun h => ?_⟩
  · simp [handleClick, h]
  · simp [handleClick]
  · simp [handleClick, h]

/-- Witness for C6: clicking the first example point twice from the mount
state selects and then clears cluster "A". -/
theorem click_selection_toggle_witness :
    (JsSel.null : JsSel String) ≠ JsSel.val (clusterAt ⟨0, 0, ["A"]⟩ 0) ∧
      handleClick [clusterAt (⟨0, 0, ["A"]⟩ : Point String) 0]
        (handleClick [clusterAt (⟨0, 0, ["A"]⟩ : Point String) 0] JsSel.null) = JsSel.null :=
  ⟨by decide, (click_selection_toggle (⟨0, 0, ["A"]⟩ : Point String) 0 [] JsSel.null).2.2.2
    (by decide)⟩

/-- C7: marker styling of a retained point: with a selected cluster the point
does not belong to, it is gray with opacity 0.2; with a selected cluster it
belongs to and a deeper level available, it is colored by its cluster id at
the next level; otherwise it is colored by its cluster id at the current
level with opacity 1. -/
theorem marker_styling_cases (c : α) (level mL : ℕ) (pt : Point α) (sel2 : JsSel α) :
    (clusterAt pt level ≠ some c →
        markerColor (JsSel.val (some c)) level mL pt = MColor.gray
        ∧ markerOpacity (JsSel.val (some c)) level pt = 1/5)
    ∧ (clusterAt pt level = some c → level < mL →
        markerColor (JsSel.val (some c)) level mL pt = MColor.cval (clusterAt pt (level + 1)))
    ∧ (selIsSome sel2 = false →
        markerColor sel2 level mL pt = MColor.cval (clusterAt pt level)
        ∧ markerOpacity sel2 level pt = 1)
    ∧ (clusterAt pt level = some c → ¬ level < mL →
        markerColor (JsSel.val (some c)) level mL pt = MColor.cval (clusterAt pt level)
        ∧ markerOpacity (JsSel.val (some c)) level pt = 1) := by
  refine ⟨fun h => ⟨?_, ?_⟩, fun h hlt => ?_, fun h => ⟨?_, ?_⟩, fun h hlt => ⟨?_, ?_⟩⟩
  · simp [markerColor, selIsSome, selEq, h, Ne.symm h]
  · simp [markerOpacity, selIsSome, selEq, h, Ne.symm h]
  · simp [markerColor, selIsSome, selEq, h, hlt]
  · rcases sel2 with _ | ⟨_ | c2⟩ <;> simp_all [markerColor, selIsSome]
  · rcases sel2 with _ | ⟨_ | c2⟩ <;> simp_all [markerOpacity, selIsSome]
  · simp [markerColor, selIsSome, selEq, h, hlt]
  · simp [markerOpacity, selIsSome, selEq, h]

/-- Witness for C7 at concrete points: selected cluster "A" at level 0 with
`maxLevel = 1`. -/
theorem marker_styling_cases_witness :
    (clusterAt (⟨0, 0, ["B", "C"]⟩ : Point String) 0 ≠ some "A" ∧
      markerColor (JsSel.val (some "A")) 0 1 (⟨0, 0, ["B", "C"]⟩ : Point String) = MColor.gray
      ∧ markerOpacity (JsSel.val (some "A")) 0 (⟨0, 0, ["B", "C"]⟩ : Point String) = 1/5) :=
  ⟨by decide,
    ((marker_styling_cases "A" 0 1 (⟨0, 0, ["B", "C"]⟩ : Point String) JsSel.null).1
      (by decide)).1,
    ((marker_styling_cases "A" 0 1 (⟨0, 0, ["B", "C"]⟩ : Point String) JsSel.null).1
      (by decide)).2⟩

/-- C8: on an input whose points all share one x-coordinate the total range is
zero and the zoom computation divides zero by zero: a zoom event with
`x0 = x1 = 5` produces `NaN` for `relativeZoom` and for `currentLevel`. -/
theorem zero_xrange_produces_nan :
    totalRange exampleZeroRange = JsNum.fin 0
    ∧ relativeZoomJs exampleZeroRange ((JsNum.fin 5).sub (JsNum.fin 5)) = JsNum.nan
    ∧ (handleRelayout exampleZeroRange 10 (some (JsNum.fin 5)) (some (JsNum.fin 5))
        exampleState).currentLevel = JsNum.nan := by
  refine ⟨?_, ?_, ?_⟩ <;>
    simp [handleRelayout, relativeZoomJs, totalRange, maxX, minX, jsMaxSpread, jsMinSpread,
      exampleZeroRange, JsNum.max, JsNum.min, JsNum.sub, JsNum.div, JsNum.mul, JsNum.floor]

/-- C9: for a point whose `clusters` list is shorter than `currentLevel + 1`,
the cluster lookup (also used as `customdata`) is the JS `undefined`; with no
selection the marker color passes that `undefined` through unchanged and the
opacity is 1 — all derivations are total, no error path exists. -/
theorem short_clusters_yield_undefined (pt : Point α) (level mL : ℕ)
    (h : pt.clusters.length ≤ level) :
    clusterAt pt level = none
    ∧ markerColor JsSel.null level mL pt = MColor.cval none
    ∧ markerOpacity JsSel.null level pt = 1 := by
  have hc : clusterAt pt level = none := List.getElem?_eq_none h
  exact ⟨hc, by simp [markerColor, selIsSome, hc], by simp [markerOpacity, selIsSome]⟩

/-- Witness for C9: a point with a single-level `clusters` list read at
level 1. -/
theorem short_clusters_yield_undefined_witness :
    (⟨0, 0, ["A"]⟩ : Point String).clusters.length ≤ 1 ∧
      (clusterAt (⟨0, 0, ["A"]⟩ : Point String) 1 = none
      ∧ markerColor JsSel.null 1 10 (⟨0, 0, ["A"]⟩ : Point String) = MColor.cval none
      ∧ markerOpacity JsSel.null 1 (⟨0, 0, ["A"]⟩ : Point String) = 1) :=
  ⟨by decide, short_clusters_yield_undefined (⟨0, 0, ["A"]⟩ : Point String) 1 10 (by decide)⟩

/-- C10: the density filter is monotonically non-increasing in the threshold
(the set retained at a larger threshold is a sublist — hence a subset — of
the one at a smaller threshold), and every filtered list is a sublist of the
input, so retained points keep their original order. -/
theorem density_filter_monotone_in_threshold (e : List (Point α)) (level t1 t2 : ℕ)
    (h : t1 ≤ t2) :
    (filteredData e level t2).Sublist (filteredData e level t1)
    ∧ (∀ pt ∈ filteredData e level t2, pt ∈ filteredData e level t1)
    ∧ (filteredData e level t1).Sublist e
    ∧ (filteredData e level t2).Sublist e := by
  have hsub : (filteredData e level t2).Sublist (filteredData e level t1) := by
    refine List.monotone_filter_right e fun pt hpt => ?_
    simp only [decide_eq_true_eq] at hpt ⊢
    exact le_trans h hpt
  exact ⟨hsub, fun pt hpt => hsub.subset hpt, List.filter_sublist e, List.filter_sublist e⟩

/-- Witness for C10: thresholds `1 ≤ 3` on the four-point example. -/
theorem density_filter_monotone_in_threshold_witness :
    (1 : ℕ) ≤ 3 ∧
      ((filteredData exampleEmbeddings 0 3).Sublist (filteredData exampleEmbeddings 0 1)
      ∧ (∀ pt ∈ filteredData exampleEmbeddings 0 3, pt ∈ filteredData exampleEmbeddings 0 1)
      ∧ (filteredData exampleEmbeddings 0 1).Sublist exampleEmbeddings
      ∧ (filteredData exampleEmbeddings 0 3).Sublist exampleEmbeddings) :=
  ⟨by decide, density_filter_monotone_in_threshold exampleEmbeddings 0 1 3 (by decide)⟩

end ClusterPlot
